/-
Verification of the message-normalization core of the `telegram-bot` raw
types crate (`src/raw/src/types/message.rs`): the classification of a flat
optional-field record into the tagged `Message` domain model, the
forward-provenance reconstruction, and the text-entity resolution.

The Rust source is shallowly embedded: each Rust struct/enum becomes a Lean
structure/inductive with the same fields in the same order, `Option<T>`
becomes `Option T`, `Vec<T>` becomes `List T`, `Box<T>` becomes `T`
(heap indirection is representation-only), and the two custom
`Deserialize` impls become total Lean functions into `Except DecodeError`.
Types the decoders consume but whose defining files are outside the
provided sources (`Chat`, `User`, `Channel`, the `Integer`/`Float`/`True`
primitives from `chat.rs`/`primitive.rs`) are modelled from the spec and
marked as such.
-/
import Mathlib

set_option maxHeartbeats 1000000

namespace Telegram

/-- Modelled from the spec: the `Integer` primitive (`primitive.rs`, not
among the provided sources) is a numeric wire value; the normalization core
only moves such values and compares them by value, so it is modelled as
`Int`. -/
abbrev Integer := Int

/-- Modelled from the spec: the `Float` primitive (`primitive.rs`, not among
the provided sources) is a floating-point wire value; the core only moves
such values, never computes with them, so it is modelled opaquely by its
wire bits. -/
structure Float where
  bits : Integer
deriving DecidableEq, Repr

/-- Modelled from the spec: the `True` marker primitive (`primitive.rs`, not
among the provided sources) is a unit-like value that stands for a present
boolean "event happened" marker; presence is carried by `Option True`. -/
inductive True where
  | mk
deriving DecidableEq, Repr

/-- Modelled from the spec: the sender reference (`chat.rs`, not among the
provided sources) is an out-of-scope collaborator type, opaque to the core
and compared by value. -/
structure User where
  id : Integer
deriving DecidableEq, Repr

/-- Modelled from the spec: the original-channel reference (`chat.rs`, not
among the provided sources), opaque to the core and compared by value. -/
structure Channel where
  id : Integer
deriving DecidableEq, Repr

/-- Modelled from the spec: a group-conversation reference (`chat.rs`, not
among the provided sources), opaque to the core. -/
structure Group where
  id : Integer
deriving DecidableEq, Repr

/-- Modelled from the spec: a supergroup-conversation reference (`chat.rs`,
not among the provided sources), opaque to the core. -/
structure Supergroup where
  id : Integer
deriving DecidableEq, Repr

/-- Modelled from the spec: the conversation reference (`chat.rs`, not among
the provided sources) is a tagged union of conversation variants, one of
which is the "channel" variant carrying a `Channel`; forward reconstruction
pattern-matches on exactly that variant (`Chat::Channel(ref channel)`). -/
inductive Chat where
  | private_ (user : User)
  | group (group : Group)
  | supergroup (supergroup : Supergroup)
  | channel (channel : Channel)
deriving DecidableEq, Repr

/-- `PhotoSize` (message.rs): one size of a photo or a file/sticker
thumbnail. -/
structure PhotoSize where
  file_id : String
  width : Integer
  height : Integer
  file_size : Option Integer
deriving DecidableEq, Repr

/-- `Audio` (message.rs): an audio file treated as music. -/
structure Audio where
  file_id : String
  duration : Integer
  performer : Option String
  title : Option String
  mime_type : Option String
  file_size : Option Integer
deriving DecidableEq, Repr

/-- `Document` (message.rs): a general file. -/
structure Document where
  file_id : String
  thumb : Option PhotoSize
  file_name : Option String
  mime_type : Option String
  file_size : Option Integer
deriving DecidableEq, Repr

/-- `Sticker` (message.rs). -/
structure Sticker where
  file_id : String
  width : Integer
  height : Integer
  thumb : Option PhotoSize
  emoji : Option String
  file_size : Option Integer
deriving DecidableEq, Repr

/-- `Video` (message.rs): a video file. -/
structure Video where
  file_id : String
  width : Integer
  height : Integer
  duration : Integer
  thumb : Option PhotoSize
  mime_type : Option String
  file_size : Option Integer
deriving DecidableEq, Repr

/-- `Voice` (message.rs): a voice note. -/
structure Voice where
  file_id : String
  duration : Integer
  mime_type : Option String
  file_size : Option Integer
deriving DecidableEq, Repr

/-- `Contact` (message.rs): a phone contact. -/
structure Contact where
  phone_number : String
  first_name : String
  last_name : Option String
  user_id : Option Integer
deriving DecidableEq, Repr

/-- `Location` (message.rs): a point on the map. -/
structure Location where
  longitude : Float
  latitude : Float
deriving DecidableEq, Repr

/-- `Venue` (message.rs). -/
structure Venue where
  location : Location
  title : String
  address : String
  foursquare_id : Option String
deriving DecidableEq, Repr

/-- `MessageId` (message.rs): newtype over `Integer`; `raw.message_id.into()`
wraps the flat integer. -/
structure MessageId where
  val : Integer
deriving DecidableEq, Repr

/-- The decode errors produced by the two hand-written `Deserialize` impls:
`D::Error::custom("invalid forward fields combination")` and
`D::Error::missing_field(name)`. -/
inductive DecodeError where
  | custom (msg : String)
  | missingField (name : String)
deriving DecidableEq, Repr

/-- `RawMessageEntity` (message.rs): one special entity of a text message,
directly mapped from the wire (the wire key `type` maps to `type_`). -/
structure RawMessageEntity where
  type_ : String
  offset : Integer
  length : Integer
  url : Option String
  user : Option User
deriving DecidableEq, Repr

/-- `MessageEntityKind` (message.rs): kind of a text entity. -/
inductive MessageEntityKind where
  | mention
  | hashtag
  | botCommand
  | url
  | email
  | bold
  | italic
  | code
  | pre
  | textLink (url : String)
  | textMention (user : User)
  | unknown (raw : RawMessageEntity)
deriving DecidableEq, Repr

/-- `MessageEntity` (message.rs): offset, length (UTF-16 code units) and
kind of one text entity. -/
structure MessageEntity where
  offset : Integer
  length : Integer
  kind : MessageEntityKind
deriving DecidableEq, Repr

/-- `ForwardFrom` (message.rs): sender of the original message. -/
inductive ForwardFrom where
  | user (user : User)
  | channel (channel : Channel) (message_id : Integer)
deriving DecidableEq, Repr

/-- `Forward` (message.rs): information about the original message. -/
structure Forward where
  date : Integer
  from_ : ForwardFrom
deriving DecidableEq, Repr

/-- The fields of `RawMessage` (message.rs), parametrized by the type `M` of
nested (boxed) messages so that the flat record can be tied into the mutual
recursion with the domain `Message` below. Field names and order follow the
Rust struct; `Box<Message>` is `M`. -/
structure RawMessageData (M : Type) where
  message_id : Integer
  from_ : Option User
  date : Integer
  chat : Chat
  forward_from : Option User
  forward_from_chat : Option Chat
  forward_from_message_id : Option Integer
  forward_date : Option Integer
  reply_to_message : Option M
  edit_date : Option Integer
  text : Option String
  entities : Option (List MessageEntity)
  audio : Option Audio
  document : Option Document
  photo : Option (List PhotoSize)
  sticker : Option Sticker
  video : Option Video
  voice : Option Voice
  caption : Option String
  contact : Option Contact
  location : Option Location
  venue : Option Venue
  new_chat_member : Option User
  left_chat_member : Option User
  new_chat_title : Option String
  new_chat_photo : Option PhotoSize
  delete_chat_photo : Option True
  group_chat_created : Option True
  supergroup_chat_created : Option True
  channel_chat_created : Option True
  migrate_to_chat_id : Option Integer
  migrate_from_chat_id : Option Integer
  pinned_message : Option M

mutual

/-- `Message` (message.rs): the domain message. One constructor carrying the
struct's eight fields in the source's order. -/
inductive Message where
  | mk (id : MessageId) (from_ : Option User) (date : Integer) (chat : Chat)
      (forward : Option Forward) (reply_to_message : Option Message)
      (edit_date : Option Integer) (kind : MessageKind) : Message

/-- `MessageKind` (message.rs): the tagged content kind of a message, one
variant per content/event slot plus the raw-preserving `Unknown` fallback. -/
inductive MessageKind where
  | text (data : String) (entities : List MessageEntity) : MessageKind
  | audio (data : Audio) : MessageKind
  | document (data : Document) (caption : Option String) : MessageKind
  | photo (data : List PhotoSize) (caption : Option String) : MessageKind
  | sticker (data : Sticker) : MessageKind
  | video (data : Video) (caption : Option String) : MessageKind
  | voice (data : Voice) : MessageKind
  | contact (data : Contact) : MessageKind
  | location (data : Location) : MessageKind
  | venue (data : Venue) : MessageKind
  | newChatMember (data : User) : MessageKind
  | leftChatMember (data : User) : MessageKind
  | newChatTitle (data : String) : MessageKind
  | newChatPhoto (data : PhotoSize) : MessageKind
  | deleteChatPhoto : MessageKind
  | groupChatCreated : MessageKind
  | supergroupChatCreated : MessageKind
  | channelChatCreated : MessageKind
  | migrateToChatId (data : Integer) : MessageKind
  | migrateFromChatId (data : Integer) : MessageKind
  | pinnedMessage (data : Message) : MessageKind
  | unknown (raw : RawMessageData Message) : MessageKind

end

/-- `RawMessage` (message.rs): the flat wire record, directly mapped. -/
abbrev RawMessage := RawMessageData Message

/-- Projection: `Message.id`. -/
def Message.id : Message → MessageId
  | .mk v _ _ _ _ _ _ _ => v

/-- Projection: `Message.from`. -/
def Message.from_ : Message → Option User
  | .mk _ v _ _ _ _ _ _ => v

/-- Projection: `Message.date`. -/
def Message.date : Message → Integer
  | .mk _ _ v _ _ _ _ _ => v

/-- Projection: `Message.chat`. -/
def Message.chat : Message → Chat
  | .mk _ _ _ v _ _ _ _ => v

/-- Projection: `Message.forward`. -/
def Message.forward : Message → Option Forward
  | .mk _ _ _ _ v _ _ _ => v

/-- Projection: `Message.reply_to_message`. -/
def Message.reply_to_message : Message → Option Message
  | .mk _ _ _ _ _ v _ _ => v

/-- Projection: `Message.edit_date`. -/
def Message.edit_date : Message → Option Integer
  | .mk _ _ _ _ _ _ v _ => v

/-- Projection: `Message.kind`. -/
def Message.kind : Message → MessageKind
  | .mk _ _ _ _ _ _ _ v => v

/-- The entity resolver: embedding of `impl Deserialize for MessageEntity`
(message.rs, lines 421-462) applied to an already-decoded
`RawMessageEntity`. Tag dispatch by exact string match; `"text_link"` and
`"text_mention"` demand their companion field via `required_field!`, any
other tag falls back to `Unknown(raw)`; offset and length are copied
through. -/
def decode_entity (raw : RawMessageEntity) : Except DecodeError MessageEntity :=
  match raw.type_ with
  | "mention" => .ok ⟨raw.offset, raw.length, .mention⟩
  | "hashtag" => .ok ⟨raw.offset, raw.length, .hashtag⟩
  | "bot_command" => .ok ⟨raw.offset, raw.length, .botCommand⟩
  | "url" => .ok ⟨raw.offset, raw.length, .url⟩
  | "email" => .ok ⟨raw.offset, raw.length, .email⟩
  | "bold" => .ok ⟨raw.offset, raw.length, .bold⟩
  | "italic" => .ok ⟨raw.offset, raw.length, .italic⟩
  | "code" => .ok ⟨raw.offset, raw.length, .code⟩
  | "pre" => .ok ⟨raw.offset, raw.length, .pre⟩
  | "text_link" =>
    match raw.url with
    | some val => .ok ⟨raw.offset, raw.length, .textLink val⟩
    | none => .error (.missingField "url")
  | "text_mention" =>
    match raw.user with
    | some val => .ok ⟨raw.offset, raw.length, .textMention val⟩
    | none => .error (.missingField "user")
  | _ => .ok ⟨raw.offset, raw.length, .unknown raw⟩

/-- The forward-provenance reconstructor: embedding of the `let forward =
match (raw.forward_date, &raw.forward_from, &raw.forward_from_chat,
raw.forward_from_message_id)` block of `impl Deserialize for Message`
(message.rs, lines 209-230). The error aborts the whole record's decode. -/
def decodeForward (raw : RawMessage) : Except DecodeError (Option Forward) :=
  match raw.forward_date, raw.forward_from, raw.forward_from_chat,
      raw.forward_from_message_id with
  | none, none, none, none => .ok none
  | some date, some from_, none, none =>
    .ok (some ⟨date, .user from_⟩)
  | some date, none, some (Chat.channel channel), some message_id =>
    .ok (some ⟨date, .channel channel message_id⟩)
  | _, _, _, _ => .error (.custom "invalid forward fields combination")

/-- The content-kind classifier: embedding of the early-return chain of
`impl Deserialize for Message` (message.rs, lines 274-305): the `if let
Some(text)` block, then the `maybe_field!` / `maybe_field_with_caption!` /
`maybe_true_field!` invocations in source order — including the duplicated
`maybe_true_field!(delete_chat_photo, DeleteChatPhoto)` on lines 295-296 —
and finally the `MessageKind::Unknown { raw }` fallback. Each early
`return make_message(kind)` becomes producing that `kind`. -/
def classify (raw : RawMessage) : MessageKind :=
  match raw.text with
  | some text =>
    MessageKind.text text (raw.entities.getD [])
  | none =>
  match raw.audio with
  | some val => MessageKind.audio val
  | none =>
  match raw.document with
  | some val => MessageKind.document val raw.caption
  | none =>
  match raw.photo with
  | some val => MessageKind.photo val raw.caption
  | none =>
  match raw.sticker with
  | some val => MessageKind.sticker val
  | none =>
  match raw.video with
  | some val => MessageKind.video val raw.caption
  | none =>
  match raw.voice with
  | some val => MessageKind.voice val
  | none =>
  match raw.contact with
  | some val => MessageKind.contact val
  | none =>
  match raw.location with
  | some val => MessageKind.location val
  | none =>
  match raw.venue with
  | some val => MessageKind.venue val
  | none =>
  match raw.new_chat_member with
  | some val => MessageKind.newChatMember val
  | none =>
  match raw.left_chat_member with
  | some val => MessageKind.leftChatMember val
  | none =>
  match raw.new_chat_title with
  | some val => MessageKind.newChatTitle val
  | none =>
  match raw.new_chat_photo with
  | some val => MessageKind.newChatPhoto val
  | none =>
  match raw.delete_chat_photo with
  | some _ => MessageKind.deleteChatPhoto
  | none =>
  match raw.delete_chat_photo with
  | some _ => MessageKind.deleteChatPhoto
  | none =>
  match raw.group_chat_created with
  | some _ => MessageKind.groupChatCreated
  | none =>
  match raw.supergroup_chat_created with
  | some _ => MessageKind.supergroupChatCreated
  | none =>
  match raw.channel_chat_created with
  | some _ => MessageKind.channelChatCreated
  | none =>
  match raw.migrate_to_chat_id with
  | some val => MessageKind.migrateToChatId val
  | none =>
  match raw.migrate_from_chat_id with
  | some val => MessageKind.migrateFromChatId val
  | none =>
  match raw.pinned_message with
  | some val => MessageKind.pinnedMessage val
  | none =>
  MessageKind.unknown raw

/-- The message decoder: embedding of `impl Deserialize for Message`
(message.rs, lines 195-306) applied to an already-decoded `RawMessage`.
The forward block runs first and its error aborts the record; every
successful path goes through `make_message`, which installs the seven
copied header fields and the kind chosen by the early-return chain
(`classify`). -/
def decode_message (raw : RawMessage) : Except DecodeError Message :=
  match decodeForward raw with
  | .error e => .error e
  | .ok forward =>
    .ok (Message.mk ⟨raw.message_id⟩ raw.from_ raw.date raw.chat forward
      raw.reply_to_message raw.edit_date (classify raw))

/-! ### Concrete sample records used by the witness theorems -/

/-- A sample user. -/
def userA : User := ⟨7⟩

/-- A sample channel. -/
def chanX : Channel := ⟨8⟩

/-- A sample (non-channel) conversation. -/
def groupChat : Chat := .group ⟨5⟩

/-- A flat record with every optional field absent: no forward fields, no
content slot populated. -/
def emptyRaw : RawMessage where
  message_id := 1
  from_ := none
  date := 100
  chat := groupChat
  forward_from := none
  forward_from_chat := none
  forward_from_message_id := none
  forward_date := none
  reply_to_message := none
  edit_date := none
  text := none
  entities := none
  audio := none
  document := none
  photo := none
  sticker := none
  video := none
  voice := none
  caption := none
  contact := none
  location := none
  venue := none
  new_chat_member := none
  left_chat_member := none
  new_chat_title := none
  new_chat_photo := none
  delete_chat_photo := none
  group_chat_created := none
  supergroup_chat_created := none
  channel_chat_created := none
  migrate_to_chat_id := none
  migrate_from_chat_id := none
  pinned_message := none

example :
    decode_message emptyRaw =
      .ok (.mk ⟨1⟩ none 100 groupChat none none none (.unknown emptyRaw)) := rfl

example :
    decode_message { emptyRaw with text := some "hi" } =
      .ok (.mk ⟨1⟩ none 100 groupChat none none none (.text "hi" [])) := rfl

example :
    decode_message { emptyRaw with forward_date := some 1000 } =
      .error (.custom "invalid forward fields combination") := rfl

example :
    decode_entity ⟨"mention", 0, 3, none, none⟩ = .ok ⟨0, 3, .mention⟩ := rfl

example :
    decode_entity ⟨"text_link", 0, 3, none, none⟩ =
      .error (.missingField "url") := rfl

example :
    decode_entity ⟨"sticker_pack_name", 0, 3, none, none⟩ =
      .ok ⟨0, 3, .unknown ⟨"sticker_pack_name", 0, 3, none, none⟩⟩ := rfl

/-! ### Helper lemmas shared by the claim theorems -/

/-- If the forward block succeeds, `decode_message` succeeds with the seven
copied header fields and the classified kind. -/
theorem decode_message_of_forward_ok (raw : RawMessage) (f : Option Forward)
    (h : decodeForward raw = .ok f) :
    decode_message raw =
      .ok (.mk ⟨raw.message_id⟩ raw.from_ raw.date raw.chat f
        raw.reply_to_message raw.edit_date (classify raw)) := by
  simp [decode_message, h]

/-- If the forward block fails, `decode_message` fails with the same error. -/
theorem decode_message_of_forward_error (raw : RawMessage) (e : DecodeError)
    (h : decodeForward raw = .error e) :
    decode_message raw = .error e := by
  simp [decode_message, h]

/-- A forward 4-tuple that matches none of the three legal shapes makes the
forward block fail with the invalid-combination error. -/
theorem decodeForward_error_of_not_legal (raw : RawMessage)
    (hnot : ¬((raw.forward_date = none ∧ raw.forward_from = none ∧
          raw.forward_from_chat = none ∧ raw.forward_from_message_id = none) ∨
        (∃ d u, raw.forward_date = some d ∧ raw.forward_from = some u ∧
          raw.forward_from_chat = none ∧ raw.forward_from_message_id = none) ∨
        (∃ d ch mid, raw.forward_date = some d ∧ raw.forward_from = none ∧
          raw.forward_from_chat = some (Chat.channel ch) ∧
          raw.forward_from_message_id = some mid))) :
    decodeForward raw = .error (.custom "invalid forward fields combination") := by
  unfold decodeForward
  rcases hd : raw.forward_date with _ | d <;>
    rcases hf : raw.forward_from with _ | u <;>
    rcases hc : raw.forward_from_chat with _ | (pu | pg | ps | pc) <;>
    rcases hm : raw.forward_from_message_id with _ | mid <;>
    simp [hd, hf, hc, hm] at hnot ⊢

/-- **C1**: the forward 4-tuple is mapped by exhaustive case match: all four
absent yields no forward; date and forwarding user present (chat and message
id absent) yields a user forward; date, channel-variant chat and message id
present (user absent) yields a channel forward; every other combination
makes decoding of the whole record fail with the invalid-forward-combination
error. -/
theorem forward_tuple_exhaustive_cases (raw : RawMessage) :
    (raw.forward_date = none ∧ raw.forward_from = none ∧
        raw.forward_from_chat = none ∧ raw.forward_from_message_id = none →
      ∃ m, decode_message raw = .ok m ∧ m.forward = none) ∧
    (∀ d u, raw.forward_date = some d → raw.forward_from = some u →
        raw.forward_from_chat = none → raw.forward_from_message_id = none →
      ∃ m, decode_message raw = .ok m ∧
        m.forward = some ⟨d, .user u⟩) ∧
    (∀ d ch mid, raw.forward_date = some d → raw.forward_from = none →
        raw.forward_from_chat = some (Chat.channel ch) →
        raw.forward_from_message_id = some mid →
      ∃ m, decode_message raw = .ok m ∧
        m.forward = some ⟨d, .channel ch mid⟩) ∧
    (¬((raw.forward_date = none ∧ raw.forward_from = none ∧
          raw.forward_from_chat = none ∧ raw.forward_from_message_id = none) ∨
        (∃ d u, raw.forward_date = some d ∧ raw.forward_from = some u ∧
          raw.forward_from_chat = none ∧ raw.forward_from_message_id = none) ∨
        (∃ d ch mid, raw.forward_date = some d ∧ raw.forward_from = none ∧
          raw.forward_from_chat = some (Chat.channel ch) ∧
          raw.forward_from_message_id = some mid)) →
      decode_message raw =
        .error (.custom "invalid forward fields combination")) := by
  refine ⟨?_, ?_, ?_, ?_⟩
  · rintro ⟨h1, h2, h3, h4⟩
    exact ⟨_, decode_message_of_forward_ok raw none
      (by simp [decodeForward, h1, h2, h3, h4]), rfl⟩
  · intro d u h1 h2 h3 h4
    exact ⟨_, decode_message_of_forward_ok raw _
      (by simp [decodeForward, h1, h2, h3, h4]), rfl⟩
  · intro d ch mid h1 h2 h3 h4
    exact ⟨_, decode_message_of_forward_ok raw _
      (by simp [decodeForward, h1, h2, h3, h4]), rfl⟩
  · intro hnot
    exact decode_message_of_forward_error raw _
      (decodeForward_error_of_not_legal raw hnot)

/-- Witness for C1: the all-absent tuple of `emptyRaw` decodes with no
forward descriptor. -/
theorem forward_tuple_exhaustive_cases_witness :
    ∃ m, decode_message emptyRaw = .ok m ∧ m.forward = none :=
  (forward_tuple_exhaustive_cases emptyRaw).1 ⟨rfl, rfl, rfl, rfl⟩

/-- **C8**: forward validation precedes content classification — an illegal
forward 4-tuple makes `decode_message` fail with the
invalid-forward-combination error even when the text content slot is
populated; no `Message` value is produced. -/
theorem forward_validation_precedes_classification (raw : RawMessage)
    (t : String) (_htext : raw.text = some t)
    (hnot : ¬((raw.forward_date = none ∧ raw.forward_from = none ∧
          raw.forward_from_chat = none ∧ raw.forward_from_message_id = none) ∨
        (∃ d u, raw.forward_date = some d ∧ raw.forward_from = some u ∧
          raw.forward_from_chat = none ∧ raw.forward_from_message_id = none) ∨
        (∃ d ch mid, raw.forward_date = some d ∧ raw.forward_from = none ∧
          raw.forward_from_chat = some (Chat.channel ch) ∧
          raw.forward_from_message_id = some mid))) :
    decode_message raw =
      .error (.custom "invalid forward fields combination") :=
  decode_message_of_forward_error raw _
    (decodeForward_error_of_not_legal raw hnot)

/-- Witness for C8: a record with text populated but only a forward date
present fails as a whole. -/
theorem forward_validation_precedes_classification_witness :
    decode_message { emptyRaw with text := some "hi", forward_date := some 1000 } =
      .error (.custom "invalid forward fields combination") :=
  forward_validation_precedes_classification
    { emptyRaw with text := some "hi", forward_date := some 1000 } "hi" rfl
    (by simp [emptyRaw])

/-- **C9**: frame property — every accepted record's produced `Message`
carries the flat record's `message_id` (wrapped), `from`, `date`, `chat`,
`reply_to_message` and `edit_date` unchanged, regardless of the chosen
content kind. -/
theorem decode_message_header_frame (raw : RawMessage) (m : Message)
    (h : decode_message raw = .ok m) :
    m.id = ⟨raw.message_id⟩ ∧ m.from_ = raw.from_ ∧ m.date = raw.date ∧
      m.chat = raw.chat ∧ m.reply_to_message = raw.reply_to_message ∧
      m.edit_date = raw.edit_date := by
  unfold decode_message at h
  rcases hf : decodeForward raw with e | f <;> rw [hf] at h
  · exact absurd h (by simp)
  · injection h with h
    subst h
    exact ⟨rfl, rfl, rfl, rfl, rfl, rfl⟩

/-- Witness for C9 at `emptyRaw`. -/
theorem decode_message_header_frame_witness :
    (Message.mk ⟨1⟩ none 100 groupChat none none none
        (.unknown emptyRaw)).id = ⟨emptyRaw.message_id⟩ ∧
      (Message.mk ⟨1⟩ none 100 groupChat none none none
        (.unknown emptyRaw)).from_ = emptyRaw.from_ ∧
      (Message.mk ⟨1⟩ none 100 groupChat none none none
        (.unknown emptyRaw)).date = emptyRaw.date ∧
      (Message.mk ⟨1⟩ none 100 groupChat none none none
        (.unknown emptyRaw)).chat = emptyRaw.chat ∧
      (Message.mk ⟨1⟩ none 100 groupChat none none none
        (.unknown emptyRaw)).reply_to_message = emptyRaw.reply_to_message ∧
      (Message.mk ⟨1⟩ none 100 groupChat none none none
        (.unknown emptyRaw)).edit_date = emptyRaw.edit_date :=
  decode_message_header_frame emptyRaw _ rfl

/-- **C6**: a populated text slot with an absent entities field decodes to
`MessageKind.text` with the empty entity list — the entity list of a decoded
text message is a (possibly empty) list, never an absent value. -/
theorem text_entities_default_empty (raw : RawMessage) (t : String)
    (fwd : Option Forward) (htext : raw.text = some t)
    (hent : raw.entities = none) (hfwd : decodeForward raw = .ok fwd) :
    ∃ m, decode_message raw = .ok m ∧ m.kind = .text t [] := by
  refine ⟨_, decode_message_of_forward_ok raw fwd hfwd, ?_⟩
  simp [Message.kind, classify, htext, hent]

/-- Witness for C6. -/
theorem text_entities_default_empty_witness :
    ∃ m, decode_message { emptyRaw with text := some "hi" } = .ok m ∧
      m.kind = .text "hi" [] :=
  text_entities_default_empty { emptyRaw with text := some "hi" } "hi" none
    rfl rfl rfl

/-- **C4**: with a legal forward tuple and all twenty-one content/event
slots empty, decoding succeeds and produces `MessageKind.Unknown` embedding
the original flat record itself — reading back the embedded raw fields
reproduces the input exactly. -/
theorem unknown_fallback_round_trip (raw : RawMessage) (fwd : Option Forward)
    (hfwd : decodeForward raw = .ok fwd)
    (h1 : raw.text = none) (h2 : raw.audio = none) (h3 : raw.document = none)
    (h4 : raw.photo = none) (h5 : raw.sticker = none) (h6 : raw.video = none)
    (h7 : raw.voice = none) (h8 : raw.contact = none)
    (h9 : raw.location = none) (h10 : raw.venue = none)
    (h11 : raw.new_chat_member = none) (h12 : raw.left_chat_member = none)
    (h13 : raw.new_chat_title = none) (h14 : raw.new_chat_photo = none)
    (h15 : raw.delete_chat_photo = none) (h16 : raw.group_chat_created = none)
    (h17 : raw.supergroup_chat_created = none)
    (h18 : raw.channel_chat_created = none)
    (h19 : raw.migrate_to_chat_id = none)
    (h20 : raw.migrate_from_chat_id = none)
    (h21 : raw.pinned_message = none) :
    decode_message raw =
      .ok (.mk ⟨raw.message_id⟩ raw.from_ raw.date raw.chat fwd
        raw.reply_to_message raw.edit_date (.unknown raw)) := by
  rw [decode_message_of_forward_ok raw fwd hfwd]
  simp [classify, h1, h2, h3, h4, h5, h6, h7, h8, h9, h10, h11, h12, h13,
    h14, h15, h16, h17, h18, h19, h20, h21]

/-- Witness for C4 at `emptyRaw`. -/
theorem unknown_fallback_round_trip_witness :
    decode_message emptyRaw =
      .ok (.mk ⟨emptyRaw.message_id⟩ emptyRaw.from_ emptyRaw.date
        emptyRaw.chat none emptyRaw.reply_to_message emptyRaw.edit_date
        (.unknown emptyRaw)) :=
  unknown_fallback_round_trip emptyRaw none rfl rfl rfl rfl rfl rfl rfl rfl
    rfl rfl rfl rfl rfl rfl rfl rfl rfl rfl rfl rfl rfl rfl

/-- A decoded message with no reply target. -/
def msg0 : Message := .mk ⟨2⟩ none 50 groupChat none none none (.unknown emptyRaw)

/-- A message that itself carries a reply target (`msg0`). -/
def msgWithReply : Message :=
  .mk ⟨3⟩ none 60 groupChat none (some msg0) none (.unknown emptyRaw)

/-- A flat record whose reply target itself carries a further reply
target. -/
def deepReplyRaw : RawMessage := { emptyRaw with reply_to_message := some msgWithReply }

/-- Counterexample to C5: `decode_message` accepts a record whose reply
target itself carries a reply target, and passes the nested reply through
unchanged — the decoder does not enforce that the nested message's own
reply-reference is empty. -/
theorem reply_invariant_not_enforced_cex :
    ∃ m, decode_message deepReplyRaw = .ok m ∧
      ∃ inner, m.reply_to_message = some inner ∧
        inner.reply_to_message ≠ none :=
  ⟨_, rfl, msgWithReply, rfl, by simp [msgWithReply, Message.reply_to_message]⟩

/-- **C5 (amended)**: the decoder copies the flat record's reply target into
the produced `Message` verbatim; the no-nested-reply property is documented
as a guarantee of the upstream data, not enforced at construction time. -/
theorem reply_to_message_copied_verbatim (raw : RawMessage) (m : Message)
    (h : decode_message raw = .ok m) :
    m.reply_to_message = raw.reply_to_message := by
  unfold decode_message at h
  rcases hf : decodeForward raw with e | f <;> rw [hf] at h
  · exact absurd h (by simp)
  · injection h with h
    subst h
    rfl

/-- Witness for the amended C5 at `deepReplyRaw`. -/
theorem reply_to_message_copied_verbatim_witness :
    (Message.mk ⟨1⟩ none 100 groupChat none (some msgWithReply) none
        (.unknown deepReplyRaw)).reply_to_message =
      deepReplyRaw.reply_to_message :=
  reply_to_message_copied_verbatim deepReplyRaw _ rfl

/-- **C2**: with a legal forward tuple, the produced kind is the variant of
the first populated slot in the fixed priority order text, audio, document,
photo, sticker, video, voice, contact, location, venue, new-chat-member,
left-chat-member, new-chat-title, new-chat-photo, delete-chat-photo,
group-created, supergroup-created, channel-created, migrate-to,
migrate-from, pinned-message; the variant carries the slot's payload
unchanged, and document, photo and video additionally carry the shared
optional caption field. -/
theorem classification_priority_order (raw : RawMessage) (fwd : Option Forward)
    (hfwd : decodeForward raw = .ok fwd) :
    (∀ t, raw.text = some t →
      ∃ m, decode_message raw = .ok m ∧
        m.kind = .text t (raw.entities.getD [])) ∧
    (raw.text = none → ∀ v, raw.audio = some v →
      ∃ m, decode_message raw = .ok m ∧ m.kind = .audio v) ∧
    (raw.text = none → raw.audio = none → ∀ v, raw.document = some v →
      ∃ m, decode_message raw = .ok m ∧ m.kind = .document v raw.caption) ∧
    (raw.text = none → raw.audio = none → raw.document = none →
      ∀ v, raw.photo = some v →
      ∃ m, decode_message raw = .ok m ∧ m.kind = .photo v raw.caption) ∧
    (raw.text = none → raw.audio = none → raw.document = none →
      raw.photo = none → ∀ v, raw.sticker = some v →
      ∃ m, decode_message raw = .ok m ∧ m.kind = .sticker v) ∧
    (raw.text = none → raw.audio = none → raw.document = none →
      raw.photo = none → raw.sticker = none → ∀ v, raw.video = some v →
      ∃ m, decode_message raw = .ok m ∧ m.kind = .video v raw.caption) ∧
    (raw.text = none → raw.audio = none → raw.document = none →
      raw.photo = none → raw.sticker = none → raw.video = none →
      ∀ v, raw.voice = some v →
      ∃ m, decode_message raw = .ok m ∧ m.kind = .voice v) ∧
    (raw.text = none → raw.audio = none → raw.document = none →
      raw.photo = none → raw.sticker = none → raw.video = none →
      raw.voice = none → ∀ v, raw.contact = some v →
      ∃ m, decode_message raw = .ok m ∧ m.kind = .contact v) ∧
    (raw.text = none → raw.audio = none → raw.document = none →
      raw.photo = none → raw.sticker = none → raw.video = none →
      raw.voice = none → raw.contact = none → ∀ v, raw.location = some v →
      ∃ m, decode_message raw = .ok m ∧ m.kind = .location v) ∧
    (raw.text = none → raw.audio = none → raw.document = none →
      raw.photo = none → raw.sticker = none → raw.video = none →
      raw.voice = none → raw.contact = none → raw.location = none →
      ∀ v, raw.venue = some v →
      ∃ m, decode_message raw = .ok m ∧ m.kind = .venue v) ∧
    (raw.text = none → raw.audio = none → raw.document = none →
      raw.photo = none → raw.sticker = none → raw.video = none →
      raw.voice = none → raw.contact = none → raw.location = none →
      raw.venue = none → ∀ v, raw.new_chat_member = some v →
      ∃ m, decode_message raw = .ok m ∧ m.kind = .newChatMember v) ∧
    (raw.text = none → raw.audio = none → raw.document = none →
      raw.photo = none → raw.sticker = none → raw.video = none →
      raw.voice = none → raw.contact = none → raw.location = none →
      raw.venue = none → raw.new_chat_member = none →
      ∀ v, raw.left_chat_member = some v →
      ∃ m, decode_message raw = .ok m ∧ m.kind = .leftChatMember v) ∧
    (raw.text = none → raw.audio = none → raw.document = none →
      raw.photo = none → raw.sticker = none → raw.video = none →
      raw.voice = none → raw.contact = none → raw.location = none →
      raw.venue = none → raw.new_chat_member = none →
      raw.left_chat_member = none → ∀ v, raw.new_chat_title = some v →
      ∃ m, decode_message raw = .ok m ∧ m.kind = .newChatTitle v) ∧
    (raw.text = none → raw.audio = none → raw.document = none →
      raw.photo = none → raw.sticker = none → raw.video = none →
      raw.voice = none → raw.contact = none → raw.location = none →
      raw.venue = none → raw.new_chat_member = none →
      raw.left_chat_member = none → raw.new_chat_title = none →
      ∀ v, raw.new_chat_photo = some v →
      ∃ m, decode_message raw = .ok m ∧ m.kind = .newChatPhoto v) ∧
    (raw.text = none → raw.audio = none → raw.document = none →
      raw.photo = none → raw.sticker = none → raw.video = none →
      raw.voice = none → raw.contact = none → raw.location = none →
      raw.venue = none → raw.new_chat_member = none →
      raw.left_chat_member = none → raw.new_chat_title = none →
      raw.new_chat_photo = none → ∀ u, raw.delete_chat_photo = some u →
      ∃ m, decode_message raw = .ok m ∧ m.kind = .deleteChatPhoto) ∧
    (raw.text = none → raw.audio = none → raw.document = none →
      raw.photo = none → raw.sticker = none → raw.video = none →
      raw.voice = none → raw.contact = none → raw.location = none →
      raw.venue = none → raw.new_chat_member = none →
      raw.left_chat_member = none → raw.new_chat_title = none →
      raw.new_chat_photo = none → raw.delete_chat_photo = none →
      ∀ u, raw.group_chat_created = some u →
      ∃ m, decode_message raw = .ok m ∧ m.kind = .groupChatCreated) ∧
    (raw.text = none → raw.audio = none → raw.document = none →
      raw.photo = none → raw.sticker = none → raw.video = none →
      raw.voice = none → raw.contact = none → raw.location = none →
      raw.venue = none → raw.new_chat_member = none →
      raw.left_chat_member = none → raw.new_chat_title = none →
      raw.new_chat_photo = none → raw.delete_chat_photo = none →
      raw.group_chat_created = none →
      ∀ u, raw.supergroup_chat_created = some u →
      ∃ m, decode_message raw = .ok m ∧ m.kind = .supergroupChatCreated) ∧
    (raw.text = none → raw.audio = none → raw.document = none →
      raw.photo = none → raw.sticker = none → raw.video = none →
      raw.voice = none → raw.contact = none → raw.location = none →
      raw.venue = none → raw.new_chat_member = none →
      raw.left_chat_member = none → raw.new_chat_title = none →
      raw.new_chat_photo = none → raw.delete_chat_photo = none →
      raw.group_chat_created = none → raw.supergroup_chat_created = none →
      ∀ u, raw.channel_chat_created = some u →
      ∃ m, decode_message raw = .ok m ∧ m.kind = .channelChatCreated) ∧
    (raw.text = none → raw.audio = none → raw.document = none →
      raw.photo = none → raw.sticker = none → raw.video = none →
      raw.voice = none → raw.contact = none → raw.location = none →
      raw.venue = none → raw.new_chat_member = none →
      raw.left_chat_member = none → raw.new_chat_title = none →
      raw.new_chat_photo = none → raw.delete_chat_photo = none →
      raw.group_chat_created = none → raw.supergroup_chat_created = none →
      raw.channel_chat_created = none → ∀ v, raw.migrate_to_chat_id = some v →
      ∃ m, decode_message raw = .ok m ∧ m.kind = .migrateToChatId v) ∧
    (raw.text = none → raw.audio = none → raw.document = none →
      raw.photo = none → raw.sticker = none → raw.video = none →
      raw.voice = none → raw.contact = none → raw.location = none →
      raw.venue = none → raw.new_chat_member = none →
      raw.left_chat_member = none → raw.new_chat_title = none →
      raw.new_chat_photo = none → raw.delete_chat_photo = none →
      raw.group_chat_created = none → raw.supergroup_chat_created = none →
      raw.channel_chat_created = none → raw.migrate_to_chat_id = none →
      ∀ v, raw.migrate_from_chat_id = some v →
      ∃ m, decode_message raw = .ok m ∧ m.kind = .migrateFromChatId v) ∧
    (raw.text = none → raw.audio = none → raw.document = none →
      raw.photo = none → raw.sticker = none → raw.video = none →
      raw.voice = none → raw.contact = none → raw.location = none →
      raw.venue = none → raw.new_chat_member = none →
      raw.left_chat_member = none → raw.new_chat_title = none →
      raw.new_chat_photo = none → raw.delete_chat_photo = none →
      raw.group_chat_created = none → raw.supergroup_chat_created = none →
      raw.channel_chat_created = none → raw.migrate_to_chat_id = none →
      raw.migrate_from_chat_id = none → ∀ v, raw.pinned_message = some v →
      ∃ m, decode_message raw = .ok m ∧ m.kind = .pinnedMessage v) := by
  refine ⟨?_, ?_, ?_, ?_, ?_, ?_, ?_, ?_, ?_, ?_, ?_, ?_, ?_, ?_, ?_, ?_,
    ?_, ?_, ?_, ?_, ?_⟩ <;>
    intros <;>
    exact ⟨_, decode_message_of_forward_ok raw fwd hfwd,
      by simp [Message.kind, classify, *]⟩

/-- A sample document payload. -/
def docA : Document := ⟨"doc-file", none, some "a.txt", none, some 12⟩

/-- A flat record carrying a document and a caption. -/
def docRaw : RawMessage :=
  { emptyRaw with document := some docA, caption := some "cap" }

/-- Witness for C2: the document slot wins and carries the shared caption. -/
theorem classification_priority_order_witness :
    ∃ m, decode_message docRaw = .ok m ∧
      m.kind = .document docA (some "cap") :=
  (classification_priority_order docRaw none rfl).2.2.1 rfl rfl docA rfl

/-- **C3**: entity resolution by free-text tag — the tags mention, hashtag,
bot_command, url, email, bold, italic, code, pre map by exact string match
to the corresponding no-payload variants; "text_link" demands the url field
(absence fails with the missing-field "url" error), "text_mention" demands
the user field (absence fails with the missing-field "user" error); any
other tag succeeds as `Unknown` carrying the original flat entity record;
offset and length are copied through unchanged in every successful case. -/
theorem entity_tag_resolution (raw : RawMessageEntity) :
    (raw.type_ = "mention" →
      decode_entity raw = .ok ⟨raw.offset, raw.length, .mention⟩) ∧
    (raw.type_ = "hashtag" →
      decode_entity raw = .ok ⟨raw.offset, raw.length, .hashtag⟩) ∧
    (raw.type_ = "bot_command" →
      decode_entity raw = .ok ⟨raw.offset, raw.length, .botCommand⟩) ∧
    (raw.type_ = "url" →
      decode_entity raw = .ok ⟨raw.offset, raw.length, .url⟩) ∧
    (raw.type_ = "email" →
      decode_entity raw = .ok ⟨raw.offset, raw.length, .email⟩) ∧
    (raw.type_ = "bold" →
      decode_entity raw = .ok ⟨raw.offset, raw.length, .bold⟩) ∧
    (raw.type_ = "italic" →
      decode_entity raw = .ok ⟨raw.offset, raw.length, .italic⟩) ∧
    (raw.type_ = "code" →
      decode_entity raw = .ok ⟨raw.offset, raw.length, .code⟩) ∧
    (raw.type_ = "pre" →
      decode_entity raw = .ok ⟨raw.offset, raw.length, .pre⟩) ∧
    (∀ u, raw.type_ = "text_link" → raw.url = some u →
      decode_entity raw = .ok ⟨raw.offset, raw.length, .textLink u⟩) ∧
    (raw.type_ = "text_link" → raw.url = none →
      decode_entity raw = .error (.missingField "url")) ∧
    (∀ u, raw.type_ = "text_mention" → raw.user = some u →
      decode_entity raw = .ok ⟨raw.offset, raw.length, .textMention u⟩) ∧
    (raw.type_ = "text_mention" → raw.user = none →
      decode_entity raw = .error (.missingField "user")) ∧
    (raw.type_ ∉ (["mention", "hashtag", "bot_command", "url", "email",
        "bold", "italic", "code", "pre", "text_link", "text_mention"] :
        List String) →
      decode_entity raw = .ok ⟨raw.offset, raw.length, .unknown raw⟩) := by
  refine ⟨?_, ?_, ?_, ?_, ?_, ?_, ?_, ?_, ?_, ?_, ?_, ?_, ?_, ?_⟩
  · intro h; unfold decode_entity; rw [h]; rfl
  · intro h; unfold decode_entity; rw [h]; rfl
  · intro h; unfold decode_entity; rw [h]; rfl
  · intro h; unfold decode_entity; rw [h]; rfl
  · intro h; unfold decode_entity; rw [h]; rfl
  · intro h; unfold decode_entity; rw [h]; rfl
  · intro h; unfold decode_entity; rw [h]; rfl
  · intro h; unfold decode_entity; rw [h]; rfl
  · intro h; unfold decode_entity; rw [h]; rfl
  · intro u h hu; unfold decode_entity; rw [h, hu]; rfl
  · intro h hu; unfold decode_entity; rw [h, hu]; rfl
  · intro u h hu; unfold decode_entity; rw [h, hu]; rfl
  · intro h hu; unfold decode_entity; rw [h, hu]; rfl
  · intro hne
    unfold decode_entity
    split <;> simp_all

/-- Witness for C3: an unrecognized tag resolves to `Unknown` with offset
and length copied through. -/
theorem entity_tag_resolution_witness :
    decode_entity ⟨"sticker_pack_name", 0, 3, none, none⟩ =
      .ok ⟨0, 3, .unknown ⟨"sticker_pack_name", 0, 3, none, none⟩⟩ :=
  (entity_tag_resolution ⟨"sticker_pack_name", 0, 3, none, none⟩).2.2.2.2.2.2.2.2.2.2.2.2.2
    (by decide)

/-- The deduplicated classifier, following the spec's words for the
refinement comparison: the same priority chain as `classify` with the
duplicated delete-chat-photo check appearing only once. -/
def classify_single (raw : RawMessage) : MessageKind :=
  match raw.text with
  | some text =>
    MessageKind.text text (raw.entities.getD [])
  | none =>
  match raw.audio with
  | some val => MessageKind.audio val
  | none =>
  match raw.document with
  | some val => MessageKind.document val raw.caption
  | none =>
  match raw.photo with
  | some val => MessageKind.photo val raw.caption
  | none =>
  match raw.sticker with
  | some val => MessageKind.sticker val
  | none =>
  match raw.video with
  | some val => MessageKind.video val raw.caption
  | none =>
  match raw.voice with
  | some val => MessageKind.voice val
  | none =>
  match raw.contact with
  | some val => MessageKind.contact val
  | none =>
  match raw.location with
  | some val => MessageKind.location val
  | none =>
  match raw.venue with
  | some val => MessageKind.venue val
  | none =>
  match raw.new_chat_member with
  | some val => MessageKind.newChatMember val
  | none =>
  match raw.left_chat_member with
  | some val => MessageKind.leftChatMember val
  | none =>
  match raw.new_chat_title with
  | some val => MessageKind.newChatTitle val
  | none =>
  match raw.new_chat_photo with
  | some val => MessageKind.newChatPhoto val
  | none =>
  match raw.delete_chat_photo with
  | some _ => MessageKind.deleteChatPhoto
  | none =>
  match raw.group_chat_created with
  | some _ => MessageKind.groupChatCreated
  | none =>
  match raw.supergroup_chat_created with
  | some _ => MessageKind.supergroupChatCreated
  | none =>
  match raw.channel_chat_created with
  | some _ => MessageKind.channelChatCreated
  | none =>
  match raw.migrate_to_chat_id with
  | some val => MessageKind.migrateToChatId val
  | none =>
  match raw.migrate_from_chat_id with
  | some val => MessageKind.migrateFromChatId val
  | none =>
  match raw.pinned_message with
  | some val => MessageKind.pinnedMessage val
  | none =>
  MessageKind.unknown raw

/-- The message decoder built on the deduplicated classifier. -/
def decode_message_single (raw : RawMessage) : Except DecodeError Message :=
  match decodeForward raw with
  | .error e => .error e
  | .ok forward =>
    .ok (Message.mk ⟨raw.message_id⟩ raw.from_ raw.date raw.chat forward
      raw.reply_to_message raw.edit_date (classify_single raw))

/-- **C7**: the decoder with the duplicated delete-chat-photo priority check
returns the same result as the decoder with a single check on every input —
the duplication has no observable effect. -/
theorem duplicate_delete_chat_photo_check_no_effect (raw : RawMessage) :
    decode_message raw = decode_message_single raw := by
  have h : classify raw = classify_single raw := by
    unfold classify classify_single
    cases raw.text
    case some => rfl
    cases raw.audio
    case some => rfl
    cases raw.document
    case some => rfl
    cases raw.photo
    case some => rfl
    cases raw.sticker
    case some => rfl
    cases raw.video
    case some => rfl
    cases raw.voice
    case some => rfl
    cases raw.contact
    case some => rfl
    cases raw.location
    case some => rfl
    cases raw.venue
    case some => rfl
    cases raw.new_chat_member
    case some => rfl
    cases raw.left_chat_member
    case some => rfl
    cases raw.new_chat_title
    case some => rfl
    cases raw.new_chat_photo
    case some => rfl
    cases raw.delete_chat_photo
    case some => rfl
    cases raw.group_chat_created
    case some => rfl
    cases raw.supergroup_chat_created
    case some => rfl
    cases raw.channel_chat_created
    case some => rfl
    cases raw.migrate_to_chat_id
    case some => rfl
    cases raw.migrate_from_chat_id
    case some => rfl
    cases raw.pinned_message
    case some => rfl
    rfl
  unfold decode_message decode_message_single
  rw [h]

/-- Statement vocabulary for the caption claim: the variants whose value
embeds the flat record's caption field — document, photo and video carry it
as their caption component, and the `Unknown` fallback embeds the whole flat
record (caption field included). -/
def MessageKind.embedsFlatCaption : MessageKind → Bool
  | .document _ _ => true
  | .photo _ _ => true
  | .video _ _ => true
  | .unknown _ => true
  | _ => false

/-- If the classified kind does not embed the flat caption, the classifier
is insensitive to the caption field. -/
theorem classify_caption_irrelevant (raw : RawMessage) (c : Option String)
    (h : (classify raw).embedsFlatCaption = false) :
    classify { raw with caption := c } = classify raw := by
  revert h
  unfold classify
  cases raw.text
  case some => intro _; rfl
  cases raw.audio
  case some => intro _; rfl
  cases raw.document
  case some => intro h; simp [MessageKind.embedsFlatCaption] at h
  cases raw.photo
  case some => intro h; simp [MessageKind.embedsFlatCaption] at h
  cases raw.sticker
  case some => intro _; rfl
  cases raw.video
  case some => intro h; simp [MessageKind.embedsFlatCaption] at h
  cases raw.voice
  case some => intro _; rfl
  cases raw.contact
  case some => intro _; rfl
  cases raw.location
  case some => intro _; rfl
  cases raw.venue
  case some => intro _; rfl
  cases raw.new_chat_member
  case some => intro _; rfl
  cases raw.left_chat_member
  case some => intro _; rfl
  cases raw.new_chat_title
  case some => intro _; rfl
  cases raw.new_chat_photo
  case some => intro _; rfl
  cases raw.delete_chat_photo
  case some => intro _; rfl
  cases raw.group_chat_created
  case some => intro _; rfl
  cases raw.supergroup_chat_created
  case some => intro _; rfl
  cases raw.channel_chat_created
  case some => intro _; rfl
  cases raw.migrate_to_chat_id
  case some => intro _; rfl
  cases raw.migrate_from_chat_id
  case some => intro _; rfl
  cases raw.pinned_message
  case some => intro _; rfl
  intro h; simp [MessageKind.embedsFlatCaption] at h

/-- **C10**: when the winning content slot is one whose variant does not
embed the flat caption field — i.e. the produced kind is neither document,
photo nor video (nor the whole-record `Unknown` fallback) — a present flat
caption field is silently discarded: replacing the caption field with any
value, decoding still succeeds and produces the very same message, with no
caption value carried anywhere in the variant. -/
theorem caption_silently_discarded (raw : RawMessage) (c : Option String)
    (m : Message) (h : decode_message raw = .ok m)
    (hk : m.kind.embedsFlatCaption = false) :
    decode_message { raw with caption := c } = .ok m := by
  unfold decode_message at h ⊢
  rcases hf : decodeForward raw with e | f <;> rw [hf] at h
  · exact absurd h (by simp)
  · injection h with h
    subst h
    simp only [Message.kind] at hk
    have hfc : decodeForward { raw with caption := c } = .ok f := hf
    rw [hfc, classify_caption_irrelevant raw c hk]

/-- A flat record carrying text together with a (discarded) caption. -/
def textCapRaw : RawMessage :=
  { emptyRaw with text := some "hi", caption := some "cap" }

/-- Witness for C10: removing the caption from a text record leaves the
decoded message unchanged. -/
theorem caption_silently_discarded_witness :
    decode_message { textCapRaw with caption := none } =
      .ok (.mk ⟨1⟩ none 100 groupChat none none none (.text "hi" [])) :=
  caption_silently_discarded textCapRaw none
    (.mk ⟨1⟩ none 100 groupChat none none none (.text "hi" [])) rfl rfl

end Telegram
